import Mathlib

/-! Verification of the Google Secret Manager vault backend (`src/env/google.rs`
of the kvenv repository), as a shallow embedding.  External effects (TLS channel
construction, gouth credential resolution, the remote AccessSecretVersion call)
are passed in as an explicit environment record, and every vault operation also
returns the trace of external events it performed, so that ordering and
call-count properties can be stated. -/

set_option autoImplicit false

namespace Kvenv

/-- JSON values, as produced by the external `serde_json` parser. -/
inductive Json where
  | null
  | bool (b : Bool)
  | num (n : Int)
  | str (s : String)
  | arr (elems : List Json)
  | obj (members : List (String × Json))
  deriving Repr

/-- Error produced by the modelled `serde_json::from_slice`. -/
structure SerdeError where
  msg : String
  deriving Repr, DecidableEq

/-- The opening-brace character, written by code point to keep it out of literals. -/
def lbrace : Char := Char.ofNat 123

/-- The closing-brace character, written by code point to keep it out of literals. -/
def rbrace : Char := Char.ofNat 125

/-- JSON insignificant whitespace. -/
def isJsonWs (c : Char) : Bool :=
  c = ' ' || c = '\n' || c = '\t' || c = '\r'

/-- Drop leading JSON whitespace. -/
def skipWs : List Char → List Char
  | [] => []
  | c :: rest => if isJsonWs c then skipWs rest else c :: rest

/-- Consume the body of a JSON string after the opening quote, up to the closing
quote (escape sequences are not modelled; no claim depends on them). -/
def parseStringBody : List Char → Option (String × List Char)
  | [] => none
  | c :: rest =>
    if c = '"' then some ("", rest)
    else
      match parseStringBody rest with
      | some (s, r) => some (String.mk (c :: s.data), r)
      | none => none

/-- Split a maximal leading run of decimal digits off the input. -/
def takeDigits : List Char → List Char × List Char
  | [] => ([], [])
  | c :: rest =>
    if c.isDigit then
      let p := takeDigits rest
      (c :: p.1, p.2)
    else ([], c :: rest)

/-- Numeric value of a digit run. -/
def digitsToNat (ds : List Char) : Nat :=
  ds.foldl (fun acc c => acc * 10 + (c.toNat - 48)) 0

/-- Require the given characters verbatim at the head of the input. -/
def expectChars : List Char → List Char → Option (List Char)
  | [], input => some input
  | _ :: _, [] => none
  | e :: es, c :: cs => if c = e then expectChars es cs else none

/-- Parse the comma-separated items of a JSON array (at least one), given a
parser `pv` for a single value; the input starts at the first item. -/
def parseArrItemsWith (pv : List Char → Option (Json × List Char)) :
    Nat → List Char → List Json → Option (List Json × List Char)
  | 0, _, _ => none
  | fuel + 1, input, acc =>
    match pv input with
    | none => none
    | some (v, rest) =>
      match skipWs rest with
      | [] => none
      | c :: rest2 =>
        if c = ',' then parseArrItemsWith pv fuel rest2 (v :: acc)
        else if c = ']' then some ((v :: acc).reverse, rest2)
        else none

/-- Parse the comma-separated members of a JSON object (at least one), given a
parser `pv` for a single value; the input starts at the first member's key. -/
def parseObjItemsWith (pv : List Char → Option (Json × List Char)) :
    Nat → List Char → List (String × Json) → Option (List (String × Json) × List Char)
  | 0, _, _ => none
  | fuel + 1, input, acc =>
    match skipWs input with
    | [] => none
    | c :: rest =>
      if c = '"' then
        match parseStringBody rest with
        | none => none
        | some (key, r1) =>
          match skipWs r1 with
          | [] => none
          | c2 :: r2 =>
            if c2 = ':' then
              match pv r2 with
              | none => none
              | some (v, r3) =>
                match skipWs r3 with
                | [] => none
                | c3 :: r4 =>
                  if c3 = ',' then parseObjItemsWith pv fuel r4 ((key, v) :: acc)
                  else if c3 = rbrace then some (((key, v) :: acc).reverse, r4)
                  else none
            else none
      else none

/-- Fuelled recursive-descent parser for a single JSON value. -/
def parseValue : Nat → List Char → Option (Json × List Char)
  | 0, _ => none
  | fuel + 1, input =>
    match skipWs input with
    | [] => none
    | c :: rest =>
      if c = '"' then
        match parseStringBody rest with
        | some (s, r) => some (Json.str s, r)
        | none => none
      else if c = lbrace then
        match skipWs rest with
        | [] => none
        | c2 :: r2 =>
          if c2 = rbrace then some (Json.obj [], r2)
          else
            match parseObjItemsWith (fun s => parseValue fuel s) fuel (c2 :: r2) [] with
            | some (ms, r) => some (Json.obj ms, r)
            | none => none
      else if c = '[' then
        match skipWs rest with
        | [] => none
        | c2 :: r2 =>
          if c2 = ']' then some (Json.arr [], r2)
          else
            match parseArrItemsWith (fun s => parseValue fuel s) fuel (c2 :: r2) [] with
            | some (vs, r) => some (Json.arr vs, r)
            | none => none
      else if c = 'n' then
        (expectChars ['u', 'l', 'l'] rest).map (fun r => (Json.null, r))
      else if c = 't' then
        (expectChars ['r', 'u', 'e'] rest).map (fun r => (Json.bool true, r))
      else if c = 'f' then
        (expectChars ['a', 'l', 's', 'e'] rest).map (fun r => (Json.bool false, r))
      else if c = '-' then
        match takeDigits rest with
        | ([], _) => none
        | (ds, r) => some (Json.num (-(digitsToNat ds : Int)), r)
      else if c.isDigit then
        match takeDigits (c :: rest) with
        | ([], _) => none
        | (ds, r) => some (Json.num (digitsToNat ds), r)
      else none

/-- Model of the external `serde_json::from_slice` used at
`src/env/google.rs:136`: parse one JSON value, allowing only trailing
whitespace; payload bytes are modelled as characters.  On empty input it fails
exactly as `serde_json` does ("EOF while parsing a value"). -/
def serde_json_from_slice (data : List Char) : Except SerdeError Json :=
  match parseValue (data.length + 1) data with
  | none => Except.error ⟨"EOF while parsing a value"⟩
  | some (v, rest) =>
    if (skipWs rest).isEmpty then Except.ok v
    else Except.error ⟨"trailing characters"⟩

/-- Error from the `gouth` credential crate (detail kept as a message). -/
structure GouthError where
  msg : String
  deriving Repr, DecidableEq

/-- Error from the `tonic` transport layer (detail kept as a message). -/
structure TransportError where
  msg : String
  deriving Repr, DecidableEq

/-- A gRPC status as carried by `tonic::Status`: numeric code plus message. -/
structure Status where
  code : Nat
  message : String
  deriving Repr, DecidableEq

/-- Model of `tonic::Status::unknown` (gRPC code UNKNOWN = 2). -/
def Status.unknown (msg : String) : Status := ⟨2, msg⟩

/-- Model of `gouth::Token`: a credential handle whose `header_value` method
yields the authorization-header string, or a `gouth` error. -/
structure Token where
  header_value : Except GouthError String
  deriving Repr

/-- Failure of `tonic::metadata::MetadataValue::from_str`. -/
structure InvalidMetadataValue where
  msg : String
  deriving Repr, DecidableEq

/-- A character that may appear in an HTTP header value (visible ASCII, space,
or horizontal tab), as validated by `MetadataValue::from_str`. -/
def validHeaderChar (c : Char) : Bool :=
  (32 ≤ c.toNat && c.toNat ≤ 126) || c.toNat = 9

/-- Model of `tonic::metadata::MetadataValue::from_str`: accept the string when
every character is a valid header-value byte. -/
def MetadataValue.from_str (s : String) : Except InvalidMetadataValue String :=
  if s.data.all validHeaderChar then Except.ok s
  else Except.error ⟨"failed to parse metadata value"⟩

/-- Request metadata: an association list of header names to values. -/
def Metadata := List (String × String)

/-- Model of `tonic::Request`: metadata plus the message payload. -/
structure Request (α : Type) where
  metadata : List (String × String)
  message : α

/-- Model of `tonic::Request::new`: empty metadata around the message. -/
def Request.new {α : Type} (msg : α) : Request α := ⟨[], msg⟩

/-- Model of `tonic::metadata::MetadataMap::insert`: replace the value at the
key if present, otherwise append the pair. -/
def insertMeta (k v : String) : List (String × String) → List (String × String)
  | [] => [(k, v)]
  | (k', v') :: rest => if k' = k then (k, v) :: rest else (k', v') :: insertMeta k v rest

/-- Lookup of a metadata key. -/
def lookupMeta (k : String) : List (String × String) → Option String
  | [] => none
  | (k', v) :: rest => if k' = k then some v else lookupMeta k rest

/-- The message of the `AccessSecretVersion` RPC: the full resource name. -/
structure AccessSecretVersionRequest where
  name : String
  deriving Repr, DecidableEq

/-- The secret payload carried in an `AccessSecretVersion` response; its bytes
are modelled as characters. -/
structure SecretPayload where
  data : List Char
  deriving Repr, DecidableEq

/-- The `AccessSecretVersion` response: an optional payload. -/
structure AccessSecretVersionResponse where
  payload : Option SecretPayload
  deriving Repr, DecidableEq

/-- Externally observable events performed by one vault operation, in order. -/
inductive Event where
  | buildChannel
  | resolveToken
  | accessSecretVersion (name : String)
  deriving Repr, DecidableEq

/-- The external world of `src/env/google.rs`: results of the `tonic` TLS and
connection steps, of `gouth` credential resolution (from a file, or by default
discovery), and the remote secret-manager endpoint's behaviour. -/
structure GEnv where
  tls_config : Except TransportError Unit
  connect : Except TransportError Unit
  gouth_file : String → Except GouthError Token
  gouth_default : Except GouthError Token
  access : Request AccessSecretVersionRequest → Except Status AccessSecretVersionResponse

/-- Error taxonomy of `src/env/google.rs:41-51`, kept verbatim. -/
inductive GoogleError where
  | TonicError (e : TransportError)
  | ConfigurationError (e : GouthError)
  | SecretManagerError (s : Status)
  | EmptySecret
  deriving Repr, DecidableEq

/-- Error of the external decoding collaborator `decode_env_from_json`. -/
structure DecodeError where
  msg : String
  deriving Repr, DecidableEq

/-- The `anyhow`-style error union a vault operation can surface: a
`GoogleError`, a `serde_json` parse error, or a decoding-collaborator error. -/
inductive VaultError where
  | google (e : GoogleError)
  | serde (e : SerdeError)
  | decode (e : DecodeError)
  deriving Repr, DecidableEq

/-- Outcome of running a Rust function that may also panic (needed because
`download_prefixed` is `todo!()`). -/
inductive RunResult (ε α : Type) where
  | ok (a : α)
  | err (e : ε)
  | panicked (msg : String)
  deriving Repr, DecidableEq

/-- Opaque shared data configuration (`DataConfig` lives outside
`src/env/google.rs`; only its identity matters here). -/
structure DataConfig where
  raw : String
  deriving Repr, DecidableEq

/-- The vault-backend state of `src/env/google.rs:53-56`: exactly a credential
file path option and a project string, nothing else (no caches). -/
structure GoogleVault where
  credentials_file : Option String
  project : String
  deriving Repr, DecidableEq

/-- Configuration consumed to build a `GoogleVault` (`src/env/google.rs:21-39`). -/
structure GoogleConfig where
  data : DataConfig
  credentials_file : Option String
  project : String
  deriving Repr, DecidableEq

/-- An `anyhow::Error`, kept as a message. -/
structure AnyhowError where
  msg : String
  deriving Repr, DecidableEq

/-- Embedding of `VaultConfig::into_vault` for `GoogleConfig`
(`src/env/google.rs:60-70`). -/
def GoogleConfig.into_vault (c : GoogleConfig) :
    Except AnyhowError (GoogleVault × DataConfig) :=
  Except.ok ({ credentials_file := c.credentials_file, project := c.project }, c.data)

/-- The fixed secret-manager endpoint of `src/env/google.rs:78`. -/
def secretManagerEndpoint : String := "https://secretmanager.googleapis.com"

/-- The TLS domain name of `src/env/google.rs:76`. -/
def secretManagerDomain : String := "secretmanager.googleapis.com"

/-- Embedding of `GoogleVault::to_token` (`src/env/google.rs:103-110`): build a
token from the credentials file when one is configured, otherwise by default
discovery; a `gouth` failure becomes `ConfigurationError`. -/
def GoogleVault.to_token (v : GoogleVault) (env : GEnv) : Except GoogleError Token :=
  match (match v.credentials_file with
         | some path => env.gouth_file path
         | none => env.gouth_default) with
  | Except.error e => Except.error (GoogleError.ConfigurationError e)
  | Except.ok t => Except.ok t

/-- The per-request interceptor closure of `src/env/google.rs:89-97`: render
the captured token to its header value, turn either rendering failure into an
unknown-status error for that request, otherwise insert the `authorization`
metadata entry and pass the request on. -/
def interceptor (token : Token) (req : Request Unit) : Except Status (Request Unit) :=
  match token.header_value with
  | Except.error e => Except.error (Status.unknown e.msg)
  | Except.ok tok =>
    match MetadataValue.from_str tok with
    | Except.error e => Except.error (Status.unknown e.msg)
    | Except.ok meta =>
      Except.ok { req with metadata := insertMeta "authorization" meta req.metadata }

/-- The authenticated client: a connected channel paired with the token its
interceptor captured. -/
structure Client where
  token : Token
  deriving Repr

/-- Embedding of `GoogleVault::to_client` (`src/env/google.rs:73-101`),
together with its event trace: channel construction (TLS config then connect)
happens first and unconditionally, and only then is the token resolved. -/
def GoogleVault.to_client (v : GoogleVault) (env : GEnv) :
    Except GoogleError Client × List Event :=
  match env.tls_config with
  | Except.error e => (Except.error (GoogleError.TonicError e), [Event.buildChannel])
  | Except.ok _ =>
    match env.connect with
    | Except.error e => (Except.error (GoogleError.TonicError e), [Event.buildChannel])
    | Except.ok _ =>
      match v.to_token env with
      | Except.error e => (Except.error e, [Event.buildChannel, Event.resolveToken])
      | Except.ok t => (Except.ok ⟨t⟩, [Event.buildChannel, Event.resolveToken])

/-- One RPC through the intercepted client: the interceptor runs on the
request's metadata; if it fails, its status is the call's error, otherwise the
request goes out with the interceptor's metadata attached. -/
def clientAccess (env : GEnv) (token : Token)
    (req : Request AccessSecretVersionRequest) :
    Except Status AccessSecretVersionResponse :=
  match interceptor token { metadata := req.metadata, message := () } with
  | Except.error s => Except.error s
  | Except.ok req' => env.access { metadata := req'.metadata, message := req.message }

/-- The resource name built at `src/env/google.rs:124-127`. -/
def fullSecretName (project secret_name : String) : String :=
  "projects/" ++ project ++ "/secrets/" ++ secret_name ++ "/versions/latest"

/-- Embedding of `GoogleVault::download_json` (`src/env/google.rs:119-138`)
with its event trace.  The decoding collaborator `decode_env_from_json` (which
lives outside this module) is passed in as a function. -/
def GoogleVault.download_json (v : GoogleVault) (env : GEnv)
    (decode_env_from_json : String → Json → Except DecodeError (List (String × String)))
    (secret_name : String) :
    Except VaultError (List (String × String)) × List Event :=
  match v.to_client env with
  | (Except.error e, tr) => (Except.error (VaultError.google e), tr)
  | (Except.ok client, tr) =>
    let name := fullSecretName v.project secret_name
    let tr := tr ++ [Event.accessSecretVersion name]
    match clientAccess env client.token (Request.new ⟨name⟩) with
    | Except.error st =>
      (Except.error (VaultError.google (GoogleError.SecretManagerError st)), tr)
    | Except.ok response =>
      match response.payload with
      | none => (Except.error (VaultError.google GoogleError.EmptySecret), tr)
      | some payload =>
        match serde_json_from_slice payload.data with
        | Except.error e => (Except.error (VaultError.serde e), tr)
        | Except.ok value =>
          match decode_env_from_json secret_name value with
          | Except.error e => (Except.error (VaultError.decode e), tr)
          | Except.ok kvs => (Except.ok kvs, tr)

/-- Embedding of `GoogleVault::download_prefixed` (`src/env/google.rs:114-117`):
the body is `todo!()`, which panics with "not yet implemented" for every input.
-/
def GoogleVault.download_prefixed (_v : GoogleVault) (_pref : String) :
    RunResult VaultError (List (String × String)) :=
  RunResult.panicked "not yet implemented"

/-- Number of occurrences of an event in a trace. -/
def countEvent (e : Event) : List Event → Nat
  | [] => 0
  | x :: rest => (if x = e then 1 else 0) + countEvent e rest

/-- The resource names of the `accessSecretVersion` events of a trace, in
order. -/
def accessNames (tr : List Event) : List String :=
  tr.filterMap (fun ev =>
    match ev with
    | Event.accessSecretVersion n => some n
    | _ => none)

/-- The combined event trace of two sequential `download_json` calls on the
same vault instance. -/
def twoCallTrace (v : GoogleVault) (env : GEnv)
    (d : String → Json → Except DecodeError (List (String × String)))
    (s1 s2 : String) : List Event :=
  (v.download_json env d s1).snd ++ (v.download_json env d s2).snd

/-! Concrete fixtures used to instantiate the theorems below. -/

/-- A token whose header value renders successfully. -/
def okTok : Token := ⟨Except.ok "Bearer abc"⟩

/-- A vault using default credential discovery. -/
def gv0 : GoogleVault := ⟨none, "proj-1"⟩

/-- A vault configured with an explicit credentials file path. -/
def gvFile : GoogleVault := ⟨some "/bad/path.json", "proj-1"⟩

/-- The spec's scenario payload, the JSON object with one member
`DB_PASS ↦ secret123`. -/
def payload0 : SecretPayload := ⟨"\x7b\"DB_PASS\":\"secret123\"\x7d".toList⟩

/-- An environment where everything succeeds and the remote endpoint returns
`payload0`. -/
def envOkW : GEnv :=
  { tls_config := Except.ok ()
    connect := Except.ok ()
    gouth_file := fun _ => Except.ok okTok
    gouth_default := Except.ok okTok
    access := fun _ => Except.ok ⟨some payload0⟩ }

/-- A concrete decoding collaborator: decode a one-member object of a string
into the singleton key/value list. -/
def dec0 : String → Json → Except DecodeError (List (String × String)) :=
  fun _ j =>
    match j with
    | Json.obj [(k, Json.str v)] => Except.ok [(k, v)]
    | _ => Except.error ⟨"bad payload"⟩

/-- An environment whose remote endpoint answers with no payload. -/
def envNone : GEnv := { envOkW with access := fun _ => Except.ok ⟨none⟩ }

/-- An environment whose remote endpoint answers with a present but
zero-length payload. -/
def envEmptyData : GEnv := { envOkW with access := fun _ => Except.ok ⟨some ⟨[]⟩⟩ }

/-- An environment where credential-file resolution fails (missing file),
while the channel itself connects fine. -/
def envBadCred : GEnv :=
  { envOkW with gouth_file := fun _ => Except.error ⟨"No such file"⟩ }

/-- An environment whose remote endpoint answers with gRPC status NOT_FOUND
(code 5). -/
def envNotFound : GEnv :=
  { envOkW with access := fun _ => Except.error ⟨5, "secret not found"⟩ }

/-! Helper lemmas shared by the claim theorems. -/

/-- Unfolding of `download_json` once channel construction and token
resolution are known to succeed: the result is determined by the remote call,
and the trace is channel build, then token resolution, then the single RPC. -/
theorem download_json_ok_infra (v : GoogleVault) (env : GEnv)
    (d : String → Json → Except DecodeError (List (String × String)))
    (s : String) (tok : Token)
    (htls : env.tls_config = Except.ok ())
    (hcon : env.connect = Except.ok ())
    (htok : v.to_token env = Except.ok tok) :
    v.download_json env d s =
      (match clientAccess env tok (Request.new ⟨fullSecretName v.project s⟩) with
       | Except.error st =>
         (Except.error (VaultError.google (GoogleError.SecretManagerError st)),
          [Event.buildChannel, Event.resolveToken,
           Event.accessSecretVersion (fullSecretName v.project s)])
       | Except.ok response =>
         match response.payload with
         | none =>
           (Except.error (VaultError.google GoogleError.EmptySecret),
            [Event.buildChannel, Event.resolveToken,
             Event.accessSecretVersion (fullSecretName v.project s)])
         | some payload =>
           match serde_json_from_slice payload.data with
           | Except.error e =>
             (Except.error (VaultError.serde e),
              [Event.buildChannel, Event.resolveToken,
               Event.accessSecretVersion (fullSecretName v.project s)])
           | Except.ok value =>
             match d s value with
             | Except.error e =>
               (Except.error (VaultError.decode e),
                [Event.buildChannel, Event.resolveToken,
                 Event.accessSecretVersion (fullSecretName v.project s)])
             | Except.ok kvs =>
               (Except.ok kvs,
                [Event.buildChannel, Event.resolveToken,
                 Event.accessSecretVersion (fullSecretName v.project s)])) := by
  simp only [GoogleVault.download_json, GoogleVault.to_client, htls, hcon, htok]
  rfl

/-- Unfolding of `download_json` when the channel connects but token
resolution fails: the error is surfaced and only the channel build and the
token attempt appear in the trace. -/
theorem download_json_token_fail (v : GoogleVault) (env : GEnv)
    (d : String → Json → Except DecodeError (List (String × String)))
    (s : String) (e : GoogleError)
    (htls : env.tls_config = Except.ok ())
    (hcon : env.connect = Except.ok ())
    (htok : v.to_token env = Except.error e) :
    v.download_json env d s =
      (Except.error (VaultError.google e),
       [Event.buildChannel, Event.resolveToken]) := by
  simp only [GoogleVault.download_json, GoogleVault.to_client, htls, hcon, htok]

/-- With explicit credentials whose resolution fails, `to_token` yields
`ConfigurationError` around the `gouth` error. -/
theorem to_token_file_fail (v : GoogleVault) (env : GEnv) (p : String)
    (e : GouthError)
    (hfile : v.credentials_file = some p)
    (hbad : env.gouth_file p = Except.error e) :
    v.to_token env = Except.error (GoogleError.ConfigurationError e) := by
  simp only [GoogleVault.to_token, hfile, hbad]

/-- When the captured token renders to a valid metadata value, a call through
the intercepted client is the remote call with the authorization header
attached. -/
theorem clientAccess_interceptor_ok (env : GEnv) (tok : Token)
    (req : Request AccessSecretVersionRequest) (hv mv : String)
    (h1 : tok.header_value = Except.ok hv)
    (h2 : MetadataValue.from_str hv = Except.ok mv) :
    clientAccess env tok req =
      env.access ⟨insertMeta "authorization" mv req.metadata, req.message⟩ := by
  simp only [clientAccess, interceptor, h1, h2]

/-- Looking up the key just inserted finds the inserted value. -/
theorem lookupMeta_insertMeta_self (k v : String) (m : List (String × String)) :
    lookupMeta k (insertMeta k v m) = some v := by
  induction m with
  | nil => simp [insertMeta, lookupMeta]
  | cons hd tl ih =>
    obtain ⟨k', v'⟩ := hd
    by_cases h : k' = k
    · simp [insertMeta, lookupMeta, h]
    · simp [insertMeta, lookupMeta, h, ih]

/-- Inserting at one key leaves lookups at every other key unchanged. -/
theorem lookupMeta_insertMeta_ne (k k' v : String) (m : List (String × String))
    (h : k' ≠ k) :
    lookupMeta k' (insertMeta k v m) = lookupMeta k' m := by
  have hk : k ≠ k' := fun hh => h hh.symm
  induction m with
  | nil => simp [insertMeta, lookupMeta, hk]
  | cons hd tl ih =>
    obtain ⟨a, b⟩ := hd
    by_cases ha : a = k
    · subst ha
      simp [insertMeta, lookupMeta, hk]
    · simp [insertMeta, lookupMeta, ha, ih]

/-- Once channel construction and token resolution succeed, the event trace of
`download_json` is exactly channel build, token resolution, then the single
RPC, whatever the remote call returns. -/
theorem download_json_trace_ok_infra (v : GoogleVault) (env : GEnv)
    (d : String → Json → Except DecodeError (List (String × String)))
    (s : String) (tok : Token)
    (htls : env.tls_config = Except.ok ())
    (hcon : env.connect = Except.ok ())
    (htok : v.to_token env = Except.ok tok) :
    (v.download_json env d s).snd =
      [Event.buildChannel, Event.resolveToken,
       Event.accessSecretVersion (fullSecretName v.project s)] := by
  rw [download_json_ok_infra v env d s tok htls hcon htok]
  split
  · rfl
  · split
    · rfl
    · split
      · rfl
      · split <;> rfl

/-! Claim theorems. -/

/-- C1 counterexample: with a reachable endpoint and a credential file whose
resolution fails, the call does fail with `ConfigurationError`, yet the trace
shows that a channel was built first — contradicting the claim that no channel
is built and that credential resolution precedes channel construction. -/
theorem c1_counterexample :
    (gvFile.download_json envBadCred dec0 "s").fst =
      Except.error (VaultError.google (GoogleError.ConfigurationError ⟨"No such file"⟩)) ∧
    (gvFile.download_json envBadCred dec0 "s").snd =
      [Event.buildChannel, Event.resolveToken] :=
  ⟨rfl, rfl⟩

/-- C1 (amended): for every call of `download_json` whose credential file
fails to resolve (while the channel itself connects), the call fails with
`ConfigurationError` and no RPC is issued, but channel construction precedes
credential resolution: the trace is exactly one channel build followed by the
failing token resolution. -/
theorem c1_config_error_after_channel (v : GoogleVault) (env : GEnv)
    (d : String → Json → Except DecodeError (List (String × String)))
    (s p : String) (e : GouthError)
    (htls : env.tls_config = Except.ok ())
    (hcon : env.connect = Except.ok ())
    (hfile : v.credentials_file = some p)
    (hbad : env.gouth_file p = Except.error e) :
    v.download_json env d s =
      (Except.error (VaultError.google (GoogleError.ConfigurationError e)),
       [Event.buildChannel, Event.resolveToken]) :=
  download_json_token_fail v env d s _ htls hcon (to_token_file_fail v env p e hfile hbad)

/-- C1 witness: the amended statement at a concrete vault and environment. -/
theorem c1_config_error_after_channel_witness :
    gvFile.download_json envBadCred dec0 "s" =
      (Except.error (VaultError.google (GoogleError.ConfigurationError ⟨"No such file"⟩)),
       [Event.buildChannel, Event.resolveToken]) :=
  c1_config_error_after_channel gvFile envBadCred dec0 "s" "/bad/path.json"
    ⟨"No such file"⟩ rfl rfl rfl rfl

/-- C2 counterexample: on the empty prefix, `download_prefixed` does not
return a dedicated error variant: it panics (the `todo!` path), contradicting
the claim that the failure is a caller-handleable `UnimplementedError` and
never a panic path. -/
theorem c2_counterexample :
    gv0.download_prefixed "" = RunResult.panicked "not yet implemented" :=
  rfl

/-- C2 (amended): for every input prefix, including the empty string,
`download_prefixed` unconditionally fails, but by panicking with "not yet
implemented" via `todo!` — not by returning a dedicated error variant (the
error enumeration has no unimplemented variant), and never by returning a
result. -/
theorem c2_download_prefixed_panics (v : GoogleVault) (pref : String) :
    v.download_prefixed pref = RunResult.panicked "not yet implemented" :=
  rfl

/-- C3: whenever the remote call succeeds but the response carries no payload,
`download_json` fails with `EmptySecret` — in particular it returns no
mapping, empty or defaulted. -/
theorem c3_absent_payload_empty_secret (v : GoogleVault) (env : GEnv)
    (d : String → Json → Except DecodeError (List (String × String)))
    (s : String) (tok : Token) (resp : AccessSecretVersionResponse)
    (htls : env.tls_config = Except.ok ())
    (hcon : env.connect = Except.ok ())
    (htok : v.to_token env = Except.ok tok)
    (hcall : clientAccess env tok (Request.new ⟨fullSecretName v.project s⟩) =
      Except.ok resp)
    (hpay : resp.payload = none) :
    (v.download_json env d s).fst =
      Except.error (VaultError.google GoogleError.EmptySecret) := by
  rw [download_json_ok_infra v env d s tok htls hcon htok]
  simp only [hcall, hpay]

/-- C3 witness: the statement at a concrete environment whose endpoint answers
with no payload. -/
theorem c3_absent_payload_empty_secret_witness :
    (gv0.download_json envNone dec0 "s").fst =
      Except.error (VaultError.google GoogleError.EmptySecret) :=
  c3_absent_payload_empty_secret gv0 envNone dec0 "s" okTok ⟨none⟩
    rfl rfl rfl rfl rfl

/-- C4: whenever the remote call succeeds with a payload that parses as JSON,
`download_json` returns exactly the decoding collaborator's result on
`(secret_name, parsed value)` — pass-through, with the collaborator's error
only injected into the error union. -/
theorem c4_decode_passthrough (v : GoogleVault) (env : GEnv)
    (d : String → Json → Except DecodeError (List (String × String)))
    (s : String) (tok : Token) (resp : AccessSecretVersionResponse)
    (pl : SecretPayload) (value : Json)
    (htls : env.tls_config = Except.ok ())
    (hcon : env.connect = Except.ok ())
    (htok : v.to_token env = Except.ok tok)
    (hcall : clientAccess env tok (Request.new ⟨fullSecretName v.project s⟩) =
      Except.ok resp)
    (hpay : resp.payload = some pl)
    (hparse : serde_json_from_slice pl.data = Except.ok value) :
    (v.download_json env d s).fst =
      Except.mapError VaultError.decode (d s value) := by
  rw [download_json_ok_infra v env d s tok htls hcon htok]
  simp only [hcall, hpay, hparse]
  cases d s value with
  | error e => rfl
  | ok kvs => rfl

/-- C4 witness: the spec's scenario — payload `DB_PASS ↦ secret123`, decoded
to the singleton pair by the concrete collaborator. -/
theorem c4_decode_passthrough_witness :
    (gv0.download_json envOkW dec0 "db-password").fst =
      Except.mapError VaultError.decode
        (dec0 "db-password" (Json.obj [("DB_PASS", Json.str "secret123")])) :=
  c4_decode_passthrough gv0 envOkW dec0 "db-password" okTok ⟨some payload0⟩
    payload0 (Json.obj [("DB_PASS", Json.str "secret123")]) rfl rfl rfl rfl rfl rfl

/-- C5: whenever the secret-storage service answers a request with a
non-success status, `download_json` fails with `SecretManagerError` carrying
exactly that status, and the trace shows a single RPC attempt (no retry). -/
theorem c5_remote_status_preserved (v : GoogleVault) (env : GEnv)
    (d : String → Json → Except DecodeError (List (String × String)))
    (s : String) (tok : Token) (hv mv : String) (st : Status)
    (htls : env.tls_config = Except.ok ())
    (hcon : env.connect = Except.ok ())
    (htok : v.to_token env = Except.ok tok)
    (hhv : tok.header_value = Except.ok hv)
    (hmv : MetadataValue.from_str hv = Except.ok mv)
    (hremote : env.access
        ⟨insertMeta "authorization" mv [], ⟨fullSecretName v.project s⟩⟩ =
      Except.error st) :
    (v.download_json env d s).fst =
      Except.error (VaultError.google (GoogleError.SecretManagerError st)) ∧
    accessNames (v.download_json env d s).snd = [fullSecretName v.project s] := by
  have hca : clientAccess env tok (Request.new ⟨fullSecretName v.project s⟩) =
      Except.error st := by
    rw [clientAccess_interceptor_ok env tok _ hv mv hhv hmv]
    exact hremote
  rw [download_json_ok_infra v env d s tok htls hcon htok]
  simp only [hca]
  exact ⟨trivial, rfl⟩

/-- C5 witness: the statement at a concrete environment answering NOT_FOUND
(gRPC code 5). -/
theorem c5_remote_status_preserved_witness :
    (gv0.download_json envNotFound dec0 "s").fst =
      Except.error (VaultError.google
        (GoogleError.SecretManagerError ⟨5, "secret not found"⟩)) ∧
    accessNames (gv0.download_json envNotFound dec0 "s").snd =
      [fullSecretName "proj-1" "s"] :=
  c5_remote_status_preserved gv0 envNotFound dec0 "s" okTok "Bearer abc"
    "Bearer abc" ⟨5, "secret not found"⟩ rfl rfl rfl rfl rfl rfl

/-- C6: every `download_json` call that reaches the wire issues exactly one
`AccessSecretVersion` request, whose name is the string
"projects/p/secrets/s/versions/latest" with the version component fixed to
"latest". -/
theorem c6_single_access_request (v : GoogleVault) (env : GEnv)
    (d : String → Json → Except DecodeError (List (String × String)))
    (s : String) (tok : Token)
    (htls : env.tls_config = Except.ok ())
    (hcon : env.connect = Except.ok ())
    (htok : v.to_token env = Except.ok tok) :
    accessNames (v.download_json env d s).snd =
      ["projects/" ++ v.project ++ "/secrets/" ++ s ++ "/versions/latest"] := by
  rw [download_json_trace_ok_infra v env d s tok htls hcon htok]
  rfl

/-- C6 witness: the statement at the spec's concrete project and secret name. -/
theorem c6_single_access_request_witness :
    accessNames (gv0.download_json envOkW dec0 "db-password").snd =
      ["projects/proj-1/secrets/db-password/versions/latest"] :=
  c6_single_access_request gv0 envOkW dec0 "db-password" okTok rfl rfl rfl

/-- C7: each `download_json` call builds the channel exactly once and resolves
the token exactly once, and two sequential calls on the same vault instance do
so twice over — nothing is cached on the instance between calls. -/
theorem c7_fresh_channel_and_token_per_call (v : GoogleVault) (env : GEnv)
    (d : String → Json → Except DecodeError (List (String × String)))
    (s1 s2 : String) (tok : Token)
    (htls : env.tls_config = Except.ok ())
    (hcon : env.connect = Except.ok ())
    (htok : v.to_token env = Except.ok tok) :
    countEvent Event.buildChannel (v.download_json env d s1).snd = 1 ∧
    countEvent Event.resolveToken (v.download_json env d s1).snd = 1 ∧
    countEvent Event.buildChannel (twoCallTrace v env d s1 s2) = 2 ∧
    countEvent Event.resolveToken (twoCallTrace v env d s1 s2) = 2 := by
  have h1 := download_json_trace_ok_infra v env d s1 tok htls hcon htok
  have h2 := download_json_trace_ok_infra v env d s2 tok htls hcon htok
  unfold twoCallTrace
  rw [h1, h2]
  simp [countEvent, List.cons_append, List.nil_append]

/-- C7 witness: the statement at a concrete vault, environment and two secret
names. -/
theorem c7_fresh_channel_and_token_per_call_witness :
    countEvent Event.buildChannel (gv0.download_json envOkW dec0 "a").snd = 1 ∧
    countEvent Event.resolveToken (gv0.download_json envOkW dec0 "a").snd = 1 ∧
    countEvent Event.buildChannel (twoCallTrace gv0 envOkW dec0 "a" "b") = 2 ∧
    countEvent Event.resolveToken (twoCallTrace gv0 envOkW dec0 "a" "b") = 2 :=
  c7_fresh_channel_and_token_per_call gv0 envOkW dec0 "a" "b" okTok rfl rfl rfl

/-- C8: the interceptor renders the captured credential to its header string;
if either rendering step fails, that request (alone) fails with an
unknown-status error (gRPC code 2); otherwise the `authorization` header is
inserted and the request is forwarded unchanged in every other respect — same
message, and every other metadata key unchanged. -/
theorem c8_interceptor_contract (tok : Token) (req : Request Unit) :
    (∀ e : GouthError, tok.header_value = Except.error e →
       interceptor tok req = Except.error (Status.unknown e.msg) ∧
       (Status.unknown e.msg).code = 2) ∧
    (∀ hv : String, ∀ e : InvalidMetadataValue,
       tok.header_value = Except.ok hv →
       MetadataValue.from_str hv = Except.error e →
       interceptor tok req = Except.error (Status.unknown e.msg) ∧
       (Status.unknown e.msg).code = 2) ∧
    (∀ hv mv : String,
       tok.header_value = Except.ok hv →
       MetadataValue.from_str hv = Except.ok mv →
       interceptor tok req =
         Except.ok ⟨insertMeta "authorization" mv req.metadata, req.message⟩ ∧
       lookupMeta "authorization" (insertMeta "authorization" mv req.metadata) =
         some mv ∧
       ∀ k : String, k ≠ "authorization" →
         lookupMeta k (insertMeta "authorization" mv req.metadata) =
           lookupMeta k req.metadata) := by
  refine ⟨?_, ?_, ?_⟩
  · intro e he
    exact ⟨by simp only [interceptor, he], rfl⟩
  · intro hv e h1 h2
    exact ⟨by simp only [interceptor, h1, h2], rfl⟩
  · intro hv mv h1 h2
    exact ⟨by simp only [interceptor, h1, h2],
      lookupMeta_insertMeta_self _ _ _,
      fun k hk => lookupMeta_insertMeta_ne _ _ _ _ hk⟩

/-- C8 witness: the success branch at a concrete token and request carrying
one unrelated metadata entry. -/
theorem c8_interceptor_contract_witness :
    interceptor okTok ⟨[("k", "v")], ()⟩ =
      Except.ok ⟨insertMeta "authorization" "Bearer abc" [("k", "v")], ()⟩ :=
  ((c8_interceptor_contract okTok ⟨[("k", "v")], ()⟩).2.2 "Bearer abc"
    "Bearer abc" rfl rfl).1

/-- C9: `into_vault` on a `GoogleConfig` always succeeds, and is a verbatim
field mapping: the vault keeps the config's credentials file and project, and
the returned data configuration is the config's `data` unchanged. -/
theorem c9_into_vault_verbatim (c : GoogleConfig) :
    ∃ v : GoogleVault, c.into_vault = Except.ok (v, c.data) ∧
      v.credentials_file = c.credentials_file ∧ v.project = c.project :=
  ⟨⟨c.credentials_file, c.project⟩, rfl, rfl, rfl⟩

/-- C10: a response whose payload is present but has zero-length data does not
produce `EmptySecret`: the empty bytes reach the JSON parser and the call
fails with the parse error instead. -/
theorem c10_empty_data_parse_error (v : GoogleVault) (env : GEnv)
    (d : String → Json → Except DecodeError (List (String × String)))
    (s : String) (tok : Token) (resp : AccessSecretVersionResponse)
    (pl : SecretPayload)
    (htls : env.tls_config = Except.ok ())
    (hcon : env.connect = Except.ok ())
    (htok : v.to_token env = Except.ok tok)
    (hcall : clientAccess env tok (Request.new ⟨fullSecretName v.project s⟩) =
      Except.ok resp)
    (hpay : resp.payload = some pl)
    (hdata : pl.data = []) :
    (v.download_json env d s).fst =
      Except.error (VaultError.serde ⟨"EOF while parsing a value"⟩) ∧
    (v.download_json env d s).fst ≠
      Except.error (VaultError.google GoogleError.EmptySecret) := by
  have hfst : (v.download_json env d s).fst =
      Except.error (VaultError.serde ⟨"EOF while parsing a value"⟩) := by
    rw [download_json_ok_infra v env d s tok htls hcon htok]
    simp only [hcall, hpay, hdata]
    rfl
  refine ⟨hfst, ?_⟩
  rw [hfst]
  intro h
  exact VaultError.noConfusion (Except.error.inj h)

/-- C10 witness: the statement at a concrete environment answering with a
present but empty payload. -/
theorem c10_empty_data_parse_error_witness :
    (gv0.download_json envEmptyData dec0 "s").fst =
      Except.error (VaultError.serde ⟨"EOF while parsing a value"⟩) ∧
    (gv0.download_json envEmptyData dec0 "s").fst ≠
      Except.error (VaultError.google GoogleError.EmptySecret) :=
  c10_empty_data_parse_error gv0 envEmptyData dec0 "s" okTok ⟨some ⟨[]⟩⟩ ⟨[]⟩
    rfl rfl rfl rfl rfl rfl

end Kvenv
